import Mathlib

/-!
# CryptoBot webhook handler (netlify/functions/cryptobot-webhook.js)

A shallow embedding of the Netlify function and the properties of its
request pipeline: signature verification, JSON parsing, field and
configuration checks, status confirmation, forwarding and notification.

Conventions of the embedding.
* A JavaScript string is a Lean `String` (a sequence of Unicode scalar values);
  a `Buffer` is a `List Nat` of bytes.
* Values that may be `undefined` (an environment variable, a header, the
  event body) are `Option String`.
* The platform services the source calls but does not define (HMAC-SHA256,
  `JSON.parse`, `JSON.stringify`, the rendering of a number as text) are the
  fields of `Runtime`; the remote endpoints reached through `fetch` are the
  fields of `World`.
* String conversion in a template literal is `jsToString`; it raises a
  TypeError (`none`) on an object that has no callable `toString`.
* An `async` function is a function returning its result together with the
  ordered list of effects it performed; an uncaught exception is a rejected
  promise.
-/

namespace CryptobotWebhook

/-! ## JavaScript values -/

/-- A JavaScript number: not-a-number, an infinity, or the finite value
`m * 2 ^ e` (both signed zeros are `m = 0`). -/
inductive JNum where
  | nan
  | inf (negative : Bool)
  | finite (m : Int) (e : Int)

/-- A JavaScript value as produced by `JSON.parse`, plus `undefined`. -/
inductive JVal where
  | undefined
  | null
  | bool (b : Bool)
  | num (n : JNum)
  | str (s : String)
  | arr (items : List JVal)
  | obj (fields : List (String × JVal))

/-- Truthiness of a number: everything but zero and NaN. -/
def JNum.truthy : JNum → Bool
  | .nan => false
  | .inf _ => true
  | .finite m _ => m != 0

/-- JavaScript ToBoolean. -/
def JVal.truthy : JVal → Bool
  | .undefined => false
  | .null => false
  | .bool b => b
  | .num n => n.truthy
  | .str s => s != ""
  | .arr _ => true
  | .obj _ => true

/-- Own-property lookup in the field list of an object. -/
def lookupField (key : String) : List (String × JVal) → JVal
  | [] => .undefined
  | (k, v) :: rest => if k = key then v else lookupField key rest

/-- Property read `v.key` on a value that is neither `null` nor `undefined`,
for the keys the handler reads (`status`, `invoice_id`, `amount`, `currency`,
`ok`, `result`): only an object can carry them. -/
def JVal.getProp (v : JVal) (key : String) : JVal :=
  match v with
  | .obj fields => lookupField key fields
  | _ => .undefined

/-- Nullish test used by `?.`. -/
def JVal.isNullish : JVal → Bool
  | .undefined => true
  | .null => true
  | _ => false

/-- Optional chaining `v?.key`. -/
def JVal.optChain (v : JVal) (key : String) : JVal :=
  if v.isNullish then .undefined else v.getProp key

/-- The expression `v || alt`. -/
def JVal.orElse (v alt : JVal) : JVal :=
  if v.truthy then v else alt

/-- The comparison `v === 'lit'` against a string literal. -/
def JVal.strictEqStr (v : JVal) (lit : String) : Bool :=
  match v with
  | .str s => s == lit
  | _ => false

/-- Does the object carry the key as an own property? -/
def hasField (key : String) (fields : List (String × JVal)) : Bool :=
  fields.any fun p => p.1 == key

mutual
/-- JavaScript ToString on a value produced by `JSON.parse`, as a template
literal applies it; `none` is a thrown TypeError. An object converts through
`Object.prototype.toString` unless it carries its own `toString`: a parsed
value is never callable, and then `valueOf` yields no primitive either, so the
conversion throws. An array converts through `join`. -/
def jsToString (numToString : JNum → String) : JVal → Option String
  | .undefined => some "undefined"
  | .null => some "null"
  | .bool b => some (if b then "true" else "false")
  | .num n => some (numToString n)
  | .str s => some s
  | .arr items => joinItems numToString items
  | .obj fields => if hasField "toString" fields then none else some "[object Object]"
/-- The call `Array.prototype.join` with the separator `,`: `null` and `undefined`
elements give the empty string, every other element is converted. -/
def joinItems (numToString : JNum → String) : List JVal → Option String
  | [] => some ""
  | x :: rest =>
    match (if x.isNullish then some "" else jsToString numToString x),
      joinItems numToString rest with
    | some a, some b => some (if rest.isEmpty then a else a ++ "," ++ b)
    | _, _ => none
end

/-- The expression `s || ''` for a string that may be `undefined`. -/
def orEmpty : Option String → String
  | some s => if s = "" then "" else s
  | none => ""

/-! ## Buffers and the signature verifier -/

/-- UTF-8 encoding of one code point. -/
def utf8EncodeChar (c : Char) : List Nat :=
  let n := c.toNat
  if n < 0x80 then [n]
  else if n < 0x800 then [0xC0 + n / 64, 0x80 + n % 64]
  else if n < 0x10000 then [0xE0 + n / 4096, 0x80 + n / 64 % 64, 0x80 + n % 64]
  else [0xF0 + n / 262144, 0x80 + n / 4096 % 64, 0x80 + n / 64 % 64, 0x80 + n % 64]

/-- The call `Buffer.from(s, 'utf8')`. -/
def bufferFromUtf8 (s : String) : List Nat :=
  s.data.flatMap utf8EncodeChar

/-- One lowercase hexadecimal digit. -/
def hexDigit (n : Nat) : Char :=
  ['0', '1', '2', '3', '4', '5', '6', '7', '8', '9', 'a', 'b', 'c', 'd', 'e', 'f'].getD n '0'

/-- Lowercase hex encoding of a byte sequence, as `digest('hex')` yields it. -/
def hexEncode (bytes : List Nat) : String :=
  String.mk (bytes.flatMap fun b => [hexDigit (b / 16 % 16), hexDigit (b % 16)])

/-- Constant-time comparison `crypto.timingSafeEqual`: it is defined on buffers
of equal length only (Node throws otherwise), and accumulates the XOR of every
byte pair without an early exit. -/
def timingSafeEqual (a b : List Nat) (_h : a.length = b.length) : Bool :=
  (List.zipWith Nat.xor a b).foldl Nat.lor 0 == 0

/-- The verifier of lines 16-25. `hmac key message` is HMAC-SHA256. -/
def verifySignature (hmac : List Nat → List Nat → List Nat)
    (rawBody : String) (signatureHex : Option String) (secret : String) : Bool :=
  if secret = "" then true
  else
    let digest := hexEncode (hmac (bufferFromUtf8 secret) (bufferFromUtf8 rawBody))
    let sigBuf := bufferFromUtf8 (orEmpty signatureHex)
    let digBuf := bufferFromUtf8 digest
    if h : sigBuf.length ≠ digBuf.length then false
    else timingSafeEqual sigBuf digBuf (not_not.mp h)

/-! ## Remote calls and effects -/

/-- An outgoing `fetch` request. -/
structure HttpRequest where
  url : String
  method : String
  headers : List (String × String)
  body : String

/-- What a `fetch` yields: a transport failure (the promise rejects), or a
response with its `ok` flag and status, the outcome of `res.json()` and the
outcome of `res.text()` (`none` when reading rejects). -/
inductive FetchResult where
  | failed
  | response (ok : Bool) (status : Nat) (json : Option JVal) (text : Option String)

/-- The three call sites of `fetch`. -/
inductive Site where
  | statusLookup
  | forward
  | notification
  deriving DecidableEq

/-- The remote endpoints, one answer function for each call site (each site is
reached at most once in an invocation). -/
structure World where
  lookup : HttpRequest → FetchResult
  forward : HttpRequest → FetchResult
  notify : HttpRequest → FetchResult

/-- Platform services used by the source. -/
structure Runtime where
  hmac : List Nat → List Nat → List Nat
  jsonParse : String → Option JVal
  jsonStringify : JVal → String
  numToString : JNum → String

/-- Observable steps of an invocation. -/
inductive Effect where
  | resolverCalled (invoiceId : JVal) (token : String)
  | forwarderCalled (rawBody signature forwardUrl relayToken : String)
  | notifierCalled (message botToken adminId : String)
  | remoteCall (site : Site) (req : HttpRequest)

/-- Is the effect an invocation of `getInvoiceStatus`? -/
def Effect.isResolver : Effect → Bool
  | .resolverCalled _ _ => true
  | _ => false

/-- Is the effect an invocation of `forwardToBackend`? -/
def Effect.isForwarder : Effect → Bool
  | .forwarderCalled _ _ _ _ => true
  | _ => false

/-- Is the effect an invocation of `notifyTelegramAdmin`? -/
def Effect.isNotifier : Effect → Bool
  | .notifierCalled _ _ _ => true
  | _ => false

/-- Is the effect a `fetch`? -/
def Effect.isRemote : Effect → Bool
  | .remoteCall _ _ => true
  | _ => false

/-- Is the effect a `fetch` issued at the given call site? -/
def Effect.isRemoteAt (site : Site) : Effect → Bool
  | .remoteCall s _ => s == site
  | _ => false

def CRYPTOBOT_API_URL : String := "https://pay.crypt.bot/api"

/-- Lines 27-44: the status resolver. The result is `null` or a truthy value. -/
def getInvoiceStatus (rt : Runtime) (w : World) (invoiceId : JVal) (token : String) :
    JVal × List Effect :=
  let req : HttpRequest :=
    { url := CRYPTOBOT_API_URL ++ "/getInvoice"
      method := "POST"
      headers := [("Content-Type", "application/json"), ("Crypto-Pay-API-Token", token)]
      body := rt.jsonStringify (.obj [("invoice_id", invoiceId)]) }
  let result : JVal :=
    match w.lookup req with
    | .failed => .null
    | .response ok _ json _ =>
      if !ok then .null
      else
        match json with
        | none => .null
        | some j =>
          if j.isNullish then .null
          else if !(j.getProp "ok").truthy then .null
          else ((j.getProp "result").optChain "status").orElse .null
  (result, [.resolverCalled invoiceId token, .remoteCall .statusLookup req])

/-- Lines 46-58: the notifier; every failure of the call is swallowed. -/
def notifyTelegramAdmin (rt : Runtime) (w : World) (message botToken adminId : String) :
    List Effect :=
  if botToken = "" ∨ adminId = "" then [.notifierCalled message botToken adminId]
  else
    let url := "https://api.telegram.org/bot" ++ botToken ++ "/sendMessage"
    let req : HttpRequest :=
      { url := url
        method := "POST"
        headers := [("Content-Type", "application/json")]
        body := rt.jsonStringify (.obj [("chat_id", .str adminId), ("text", .str message)]) }
    match w.notify req with
    | .failed => [.notifierCalled message botToken adminId, .remoteCall .notification req]
    | .response _ _ _ _ => [.notifierCalled message botToken adminId, .remoteCall .notification req]

/-- The value `forwardToBackend` resolves to. -/
structure ForwardResult where
  ok : Bool
  status : Nat
  text : Option String

/-- Lines 60-75: the forwarder. `none` is a rejected promise: a transport
failure of `fetch` is not caught. -/
def forwardToBackend (w : World) (rawBody : String) (originalSignature : Option String)
    (forwardUrl relayToken : String) : Option ForwardResult × List Effect :=
  let called : Effect :=
    .forwarderCalled rawBody (orEmpty originalSignature) forwardUrl relayToken
  if forwardUrl = "" then (some { ok := true, status := 204, text := none }, [called])
  else
    let headers : List (String × String) :=
      [("Content-Type", "application/json"),
       ("X-Crypto-Pay-API-Signature", orEmpty originalSignature),
       ("X-Forwarded-By", "netlify-cryptobot-webhook")]
    let headers := if relayToken = "" then headers else headers ++ [("X-Relay-Token", relayToken)]
    let req : HttpRequest :=
      { url := forwardUrl, method := "POST", headers := headers, body := rawBody }
    match w.forward req with
    | .failed => (none, [called, .remoteCall .forward req])
    | .response ok status _ text =>
      (some { ok := ok, status := status, text := some (text.getD "") },
        [called, .remoteCall .forward req])

/-! ## The handler -/

/-- The event Netlify passes to the function. -/
structure HandlerEvent where
  httpMethod : String
  body : Option String
  headers : List (String × String)

/-- The environment variables the handler reads (`process.env`). -/
structure Env where
  WEBHOOK_SECRET : Option String
  CRYPTOBOT_TOKEN : Option String
  BOT_TOKEN : Option String
  ADMIN_ID : Option String
  FORWARD_URL : Option String
  RELAY_TOKEN : Option String

/-- What an invocation ends with: a response, or a rejected promise (an
exception left the handler). -/
inductive Outcome where
  | response (statusCode : Nat) (body : String)
  | rejected
  deriving DecidableEq

/-- Property read `headers[name]`: an exact match of the key. -/
def headerGet (name : String) : List (String × String) → Option String
  | [] => none
  | (k, v) :: rest => if k = name then some v else headerGet name rest

/-- The expression `a || b` on strings that may be `undefined`. -/
def orStr (a b : Option String) : Option String :=
  match a with
  | some s => if s = "" then b else some s
  | none => b

/-- Line 82: `event.body || ''`. -/
def rawBodyOf (event : HandlerEvent) : String :=
  orEmpty event.body

/-- Line 83: the signature header as the handler reads it. -/
def signatureOf (event : HandlerEvent) : String :=
  orEmpty (orStr (headerGet "x-crypto-pay-api-signature" event.headers)
    (headerGet "X-Crypto-Pay-API-Signature" event.headers))

/-- Line 127: the text of the notification. The three substitutions of the
template literal are converted in order; `none` is a TypeError thrown by one
of them. -/
def paidMessage (rt : Runtime) (data invoiceId : JVal) : Option String :=
  match jsToString rt.numToString invoiceId with
  | none => none
  | some idText =>
    match jsToString rt.numToString ((data.optChain "amount").orElse (.str "")) with
    | none => none
    | some amountText =>
      match jsToString rt.numToString ((data.optChain "currency").orElse (.str "")) with
      | none => none
      | some currencyText =>
        some ("âœ… Payment received\nInvoice: " ++ idText ++ "\nAmount: " ++ amountText ++
          " " ++ currencyText)

/-- Lines 133-137: the response once the forward result is known. -/
def finalResponse (forwardRes : ForwardResult) : Outcome :=
  if !forwardRes.ok then
    .response 502 ("Forward failed (" ++ toString forwardRes.status ++ "): " ++
      orEmpty forwardRes.text)
  else .response 200 "Webhook processed and forwarded"

/-- Lines 77-138: `exports.handler`. -/
def handler (rt : Runtime) (w : World) (env : Env) (event : HandlerEvent) :
    Outcome × List Effect :=
  if event.httpMethod ≠ "POST" then (.response 405 "Method Not Allowed", [])
  else
    let rawBody := rawBodyOf event
    let signature := signatureOf event
    let WEBHOOK_SECRET := orEmpty env.WEBHOOK_SECRET
    let CRYPTOBOT_TOKEN := orEmpty env.CRYPTOBOT_TOKEN
    let BOT_TOKEN := orEmpty env.BOT_TOKEN
    let ADMIN_ID := orEmpty env.ADMIN_ID
    let FORWARD_URL := orEmpty env.FORWARD_URL
    let RELAY_TOKEN := orEmpty env.RELAY_TOKEN
    let isValid := verifySignature rt.hmac rawBody (some signature) WEBHOOK_SECRET
    if !isValid then (.response 401 "Invalid signature", [])
    else
      match rt.jsonParse rawBody with
      | none => (.response 400 "Invalid JSON", [])
      | some data =>
        let status := data.optChain "status"
        let invoiceId := data.optChain "invoice_id"
        if !invoiceId.truthy then (.response 400 "Invoice ID not found", [])
        else if CRYPTOBOT_TOKEN = "" then
          (.response 500 "Server not configured: CRYPTOBOT_TOKEN missing", [])
        else
          let confirmed := getInvoiceStatus rt w invoiceId CRYPTOBOT_TOKEN
          let confirmedStatus := confirmed.1
          if !confirmedStatus.truthy then (.response 400 "Payment info not found", confirmed.2)
          else
            let forwarded := forwardToBackend w rawBody (some signature) FORWARD_URL RELAY_TOKEN
            match forwarded.1 with
            | none => (.rejected, confirmed.2 ++ forwarded.2)
            | some forwardRes =>
              if status.strictEqStr "paid" && confirmedStatus.strictEqStr "paid" then
                match paidMessage rt data invoiceId with
                | none => (.rejected, confirmed.2 ++ forwarded.2)
                | some message =>
                  (finalResponse forwardRes, confirmed.2 ++ forwarded.2 ++
                    notifyTelegramAdmin rt w message BOT_TOKEN ADMIN_ID)
              else (finalResponse forwardRes, confirmed.2 ++ forwarded.2)

/-! ## The handler's local values, named for the statements below -/

/-- Line 93: `isValid`. -/
def isValidOf (rt : Runtime) (env : Env) (event : HandlerEvent) : Bool :=
  verifySignature rt.hmac (rawBodyOf event) (some (signatureOf event)) (orEmpty env.WEBHOOK_SECRET)

/-- Line 116: the resolver call made for the parsed payload `data`. -/
def confirmedOf (rt : Runtime) (w : World) (env : Env) (data : JVal) : JVal × List Effect :=
  getInvoiceStatus rt w (data.optChain "invoice_id") (orEmpty env.CRYPTOBOT_TOKEN)

/-- Line 122: the forwarder call. -/
def forwardedOf (w : World) (env : Env) (event : HandlerEvent) :
    Option ForwardResult × List Effect :=
  forwardToBackend w (rawBodyOf event) (some (signatureOf event)) (orEmpty env.FORWARD_URL)
    (orEmpty env.RELAY_TOKEN)

/-- Line 125: the condition guarding the notification. -/
def bothPaid (rt : Runtime) (w : World) (env : Env) (data : JVal) : Bool :=
  (data.optChain "status").strictEqStr "paid" && (confirmedOf rt w env data).1.strictEqStr "paid"

/-- Lines 125-131: the effects of the notification step; `none` when building
the text of the notification throws. -/
def notifiedOf (rt : Runtime) (w : World) (env : Env) (data : JVal) : Option (List Effect) :=
  if bothPaid rt w env data then
    match paidMessage rt data (data.optChain "invoice_id") with
    | none => none
    | some message =>
      some (notifyTelegramAdmin rt w message (orEmpty env.BOT_TOKEN) (orEmpty env.ADMIN_ID))
  else some []

/-- Every step of the pipeline passed: the method is POST, the verifier returned
true, the body parsed, the invoice_id check passed, the provider token is
non-empty, the resolver returned a status, and the forward result is ok. -/
def allStepsPassed (rt : Runtime) (w : World) (env : Env) (event : HandlerEvent) : Prop :=
  event.httpMethod = "POST" ∧ isValidOf rt env event = true ∧
    ∃ data, rt.jsonParse (rawBodyOf event) = some data ∧
      (data.optChain "invoice_id").truthy = true ∧
      orEmpty env.CRYPTOBOT_TOKEN ≠ "" ∧
      (confirmedOf rt w env data).1 ≠ .null ∧
      ∃ res, (forwardedOf w env event).1 = some res ∧ res.ok = true

/-- The rejection condition of the field check in the specification's words:
the parsed value is not an object carrying `invoice_id`, or its `invoice_id` is
null or empty. -/
def specInvoiceIdMissing (data : JVal) : Bool :=
  match data with
  | .obj fields =>
    match lookupField "invoice_id" fields with
    | .undefined => true
    | .null => true
    | .str id => id == ""
    | _ => false
  | _ => true

/-- The rejection condition of the field check with the falsy values spelled
out: the parsed value is not an object carrying `invoice_id`, or its
`invoice_id` is null, false, zero, NaN or the empty string. -/
def invoiceIdFalsy (data : JVal) : Bool :=
  match data with
  | .obj fields =>
    match lookupField "invoice_id" fields with
    | .undefined => true
    | .null => true
    | .bool b => !b
    | .num .nan => true
    | .num (.inf _) => false
    | .num (.finite m _) => m == 0
    | .str id => id == ""
    | .arr _ => false
    | .obj _ => false
  | _ => true

/-- A non-empty string, or a number other than zero and NaN. -/
def JVal.isUsableId : JVal → Bool
  | .str id => id != ""
  | .num n => n.truthy
  | _ => false

/-- Status code of a response. -/
def Outcome.status : Outcome → Option Nat
  | .response statusCode _ => some statusCode
  | .rejected => none

/-- Number of invocations of the notifier in a list of effects. -/
def notifierCalls (effects : List Effect) : Nat :=
  (effects.filter Effect.isNotifier).length

/-- Number of `fetch` calls in a list of effects. -/
def remoteCalls (effects : List Effect) : Nat :=
  (effects.filter Effect.isRemote).length

/-! ## Concrete platform used to evaluate the definitions -/

/-- A keyed digest of 32 bytes standing in for HMAC-SHA256 in evaluations. -/
def sampleHmac (key msg : List Nat) : List Nat :=
  List.replicate 32 ((key.sum + 3 * msg.sum) % 256)

/-- The body `{"invoice_id":123,"status":"paid"}`. -/
def paidBody : String := "\x7b\"invoice_id\":123,\"status\":\"paid\"\x7d"

/-- The body `{"invoice_id":123}`. -/
def bareBody : String := "\x7b\"invoice_id\":123\x7d"

/-- The body `{"invoice_id":0}`. -/
def zeroBody : String := "\x7b\"invoice_id\":0\x7d"

/-- The body `{"invoice_id":123,"status":"paid","amount":{"toString":null}}`. -/
def brokenAmountBody : String :=
  "\x7b\"invoice_id\":123,\"status\":\"paid\",\"amount\":\x7b\"toString\":null\x7d\x7d"

/-- The body `{"status":"paid"}`. -/
def noIdBody : String := "\x7b\"status\":\"paid\"\x7d"

/-- The parsed form of `paidBody`. -/
def paidData : JVal :=
  .obj [("invoice_id", .num (.finite 123 0)), ("status", .str "paid")]

/-- The parsed form of `bareBody`. -/
def bareData : JVal :=
  .obj [("invoice_id", .num (.finite 123 0))]

/-- The parsed form of `zeroBody`. -/
def zeroData : JVal :=
  .obj [("invoice_id", .num (.finite 0 0))]

/-- The parsed form of `brokenAmountBody`. -/
def brokenAmountData : JVal :=
  .obj [("invoice_id", .num (.finite 123 0)), ("status", .str "paid"),
    ("amount", .obj [("toString", .null)])]

/-- `JSON.parse` on the sample bodies; any other text is rejected. -/
def sampleParse (s : String) : Option JVal :=
  if s = paidBody then some paidData
  else if s = bareBody then some bareData
  else if s = zeroBody then some zeroData
  else if s = noIdBody then some (.obj [("status", .str "paid")])
  else if s = brokenAmountBody then some brokenAmountData
  else none

/-- Number rendering on the integers of the sample bodies. -/
def sampleNumToString : JNum → String
  | .nan => "NaN"
  | .inf negative => if negative then "-Infinity" else "Infinity"
  | .finite m _ => toString m

/-- A platform for evaluations. -/
def sampleRuntime : Runtime :=
  { hmac := sampleHmac
    jsonParse := sampleParse
    jsonStringify := fun _ => "json"
    numToString := sampleNumToString }

/-- The provider answer `{"ok":true,"result":{"status":"paid"}}`. -/
def paidAnswer : FetchResult :=
  .response true 200
    (some (.obj [("ok", .bool true), ("result", .obj [("status", .str "paid")])])) none

/-- A world where the provider confirms "paid", the backend answers 200 and
the messaging API answers 200. -/
def worldAllOk : World :=
  { lookup := fun _ => paidAnswer
    forward := fun _ => .response true 200 none (some "done")
    notify := fun _ => .response true 200 none none }

/-- A world where the provider confirms "paid" and the backend answers 500. -/
def worldForwardDown : World :=
  { lookup := fun _ => paidAnswer
    forward := fun _ => .response false 500 none (some "down")
    notify := fun _ => .response true 200 none none }

/-- An environment with the webhook secret and the provider token. -/
def envWithSecret : Env :=
  { WEBHOOK_SECRET := some "secret"
    CRYPTOBOT_TOKEN := some "token"
    BOT_TOKEN := none
    ADMIN_ID := none
    FORWARD_URL := none
    RELAY_TOKEN := none }

/-- An environment with nothing set. -/
def envEmpty : Env :=
  { WEBHOOK_SECRET := none
    CRYPTOBOT_TOKEN := none
    BOT_TOKEN := none
    ADMIN_ID := none
    FORWARD_URL := none
    RELAY_TOKEN := none }

/-- A POST of the given body without any header. -/
def postOf (body : String) : HandlerEvent :=
  { httpMethod := "POST", body := some body, headers := [] }

/-- A world where the provider confirms "paid", the backend answers 200 and
the messaging API cannot be reached. -/
def worldNotifyDown : World :=
  { lookup := fun _ => paidAnswer
    forward := fun _ => .response true 200 none (some "done")
    notify := fun _ => .failed }

/-- An environment with the provider token and the notifier settings. -/
def envWithNotifier : Env :=
  { WEBHOOK_SECRET := none
    CRYPTOBOT_TOKEN := some "token"
    BOT_TOKEN := some "bot"
    ADMIN_ID := some "42"
    FORWARD_URL := none
    RELAY_TOKEN := none }

/-- The correct signature of `paidBody` under the secret of `envWithSecret`. -/
def paidSignature : String :=
  hexEncode (sampleHmac (bufferFromUtf8 "secret") (bufferFromUtf8 paidBody))

/-- A POST of `paidBody` carrying its correct signature under the given header name. -/
def signedPost (headerName : String) : HandlerEvent :=
  { httpMethod := "POST", body := some paidBody, headers := [(headerName, paidSignature)] }

/-- An environment with everything but the webhook secret. -/
def envForwarding : Env :=
  { WEBHOOK_SECRET := none
    CRYPTOBOT_TOKEN := some "token"
    BOT_TOKEN := some "bot"
    ADMIN_ID := some "42"
    FORWARD_URL := some "https://backend.example/hook"
    RELAY_TOKEN := some "relay" }

/-- An environment with the provider token only. -/
def envTokenOnly : Env :=
  { WEBHOOK_SECRET := none
    CRYPTOBOT_TOKEN := some "token"
    BOT_TOKEN := none
    ADMIN_ID := none
    FORWARD_URL := none
    RELAY_TOKEN := none }

/-! ## Buffer lemmas -/

theorem lor_eq_zero_iff (a b : Nat) : Nat.lor a b = 0 ↔ a = 0 ∧ b = 0 := by
  constructor
  · intro h
    have h2 : a ||| b = 0 := h
    constructor
    · apply Nat.eq_of_testBit_eq
      intro i
      have := congrArg (fun n => Nat.testBit n i) h2
      simp [Nat.testBit_or] at this
      simp [this.1]
    · apply Nat.eq_of_testBit_eq
      intro i
      have := congrArg (fun n => Nat.testBit n i) h2
      simp [Nat.testBit_or] at this
      simp [this.2]
  · rintro ⟨rfl, rfl⟩
    rfl

theorem foldl_lor_eq_zero_iff (l : List Nat) (acc : Nat) :
    l.foldl Nat.lor acc = 0 ↔ acc = 0 ∧ ∀ x ∈ l, x = 0 := by
  induction l generalizing acc with
  | nil => simp
  | cons x xs ih =>
    simp only [List.foldl_cons, ih, lor_eq_zero_iff, List.mem_cons, forall_eq_or_imp]
    tauto

theorem zipWith_xor_zero_iff (a b : List Nat) (h : a.length = b.length) :
    (∀ x ∈ List.zipWith Nat.xor a b, x = 0) ↔ a = b := by
  induction a generalizing b with
  | nil =>
    cases b with
    | nil => simp
    | cons y ys => simp at h
  | cons x xs ih =>
    cases b with
    | nil => simp at h
    | cons y ys =>
      have hl : xs.length = ys.length := by simpa using h
      have hx : Nat.xor x y = 0 ↔ x = y := Nat.xor_eq_zero
      simp only [List.zipWith_cons_cons, List.mem_cons, forall_eq_or_imp, ih ys hl, hx,
        List.cons.injEq]

/-- The constant-time comparison decides equality of the two buffers. -/
theorem timingSafeEqual_iff (a b : List Nat) (h : a.length = b.length) :
    timingSafeEqual a b h = true ↔ a = b := by
  unfold timingSafeEqual
  rw [beq_iff_eq, foldl_lor_eq_zero_iff, zipWith_xor_zero_iff a b h]
  simp

theorem utf8EncodeChar_ne_nil (c : Char) : utf8EncodeChar c ≠ [] := by
  unfold utf8EncodeChar
  simp only
  split_ifs <;> simp

/-- The first byte of an encoded code point is below 128 only for a
one-byte encoding. -/
theorem utf8EncodeChar_head (c : Char) (x : Nat) (rest tail : List Nat) (hx : x < 128)
    (h : utf8EncodeChar c ++ tail = x :: rest) : c.toNat = x ∧ tail = rest := by
  unfold utf8EncodeChar at h
  simp only at h
  split_ifs at h with h1 h2 h3
  · simp at h
    exact h
  · simp at h
    omega
  · simp at h
    omega
  · simp at h
    omega

theorem char_eq_of_toNat_eq {c d : Char} (h : c.toNat = d.toNat) : c = d := by
  apply Char.ext
  apply UInt32.ext
  exact h

/-- A string whose UTF-8 encoding equals that of an ASCII string is that string. -/
theorem utf8_eq_ascii (d : List Char) (hd : ∀ c ∈ d, c.toNat < 128) (s : List Char)
    (h : s.flatMap utf8EncodeChar = d.flatMap utf8EncodeChar) : s = d := by
  induction d generalizing s with
  | nil =>
    cases s with
    | nil => rfl
    | cons c cs =>
      simp only [List.flatMap_cons, List.flatMap_nil, List.append_eq_nil] at h
      exact absurd h.1 (utf8EncodeChar_ne_nil c)
  | cons x xs ih =>
    have hx : x.toNat < 128 := hd x (List.mem_cons_self _ _)
    have hxe : utf8EncodeChar x = [x.toNat] := by
      unfold utf8EncodeChar
      simp [hx]
    cases s with
    | nil =>
      simp only [List.flatMap_cons, List.flatMap_nil] at h
      rw [hxe] at h
      simp at h
    | cons c cs =>
      simp only [List.flatMap_cons] at h
      rw [hxe] at h
      have := utf8EncodeChar_head c x.toNat _ _ hx h
      have hc : c = x := char_eq_of_toNat_eq this.1
      have ht := ih (fun c hc => hd c (List.mem_cons_of_mem _ hc)) cs this.2
      rw [hc, ht]

theorem hexDigit_ascii (n : Nat) (h : n < 16) : (hexDigit n).toNat < 128 := by
  interval_cases n <;> decide

theorem hexEncode_ascii (bytes : List Nat) : ∀ c ∈ (hexEncode bytes).data, c.toNat < 128 := by
  intro c hc
  simp only [hexEncode, List.mem_flatMap, List.mem_cons, List.mem_singleton,
    List.not_mem_nil, or_false] at hc
  obtain ⟨b, _, hb | hb⟩ := hc
  · rw [hb]
    exact hexDigit_ascii _ (Nat.mod_lt _ (by norm_num))
  · rw [hb]
    exact hexDigit_ascii _ (Nat.mod_lt _ (by norm_num))

theorem hexEncode_length (bytes : List Nat) : (hexEncode bytes).length = 2 * bytes.length := by
  induction bytes with
  | nil => rfl
  | cons b bs ih =>
    simp only [hexEncode, String.length, List.flatMap_cons, List.length_append,
      List.length_cons, List.length_nil] at ih ⊢
    omega

/-- Encoding to UTF-8 separates any string from a hex digest it differs from. -/
theorem bufferFromUtf8_eq_hex_iff (s : String) (bytes : List Nat) :
    bufferFromUtf8 s = bufferFromUtf8 (hexEncode bytes) ↔ s = hexEncode bytes := by
  constructor
  · intro h
    have := utf8_eq_ascii (hexEncode bytes).data (hexEncode_ascii bytes) s.data h
    exact String.ext this
  · intro h
    rw [h]

/-- Characterisation of the verifier for a configured secret. -/
theorem verifySignature_configured (hmac : List Nat → List Nat → List Nat)
    (rawBody : String) (signatureHex : Option String) (secret : String) (hs : secret ≠ "") :
    verifySignature hmac rawBody signatureHex secret = true ↔
      orEmpty signatureHex = hexEncode (hmac (bufferFromUtf8 secret) (bufferFromUtf8 rawBody)) := by
  unfold verifySignature
  rw [if_neg hs]
  simp only
  split_ifs with hlen
  · constructor
    · intro h
      exact absurd h (by simp)
    · intro h
      rw [h] at hlen
      exact absurd rfl hlen
  · rw [timingSafeEqual_iff, bufferFromUtf8_eq_hex_iff]

theorem verifySignature_unconfigured (hmac : List Nat → List Nat → List Nat)
    (rawBody : String) (signatureHex : Option String) :
    verifySignature hmac rawBody signatureHex "" = true := by
  unfold verifySignature
  simp

/-! ## The pipeline, one equation for each exit -/

theorem handler_wrong_method (rt : Runtime) (w : World) (env : Env) (event : HandlerEvent)
    (hm : event.httpMethod ≠ "POST") :
    handler rt w env event = (.response 405 "Method Not Allowed", []) := by
  simp [handler, hm]

theorem handler_bad_signature (rt : Runtime) (w : World) (env : Env) (event : HandlerEvent)
    (hm : event.httpMethod = "POST") (hv : isValidOf rt env event = false) :
    handler rt w env event = (.response 401 "Invalid signature", []) := by
  unfold isValidOf at hv
  simp [handler, hm, hv]

theorem handler_bad_json (rt : Runtime) (w : World) (env : Env) (event : HandlerEvent)
    (hm : event.httpMethod = "POST") (hv : isValidOf rt env event = true)
    (hp : rt.jsonParse (rawBodyOf event) = none) :
    handler rt w env event = (.response 400 "Invalid JSON", []) := by
  unfold isValidOf at hv
  simp [handler, hm, hv, hp]

theorem handler_no_invoice (rt : Runtime) (w : World) (env : Env) (event : HandlerEvent)
    (data : JVal) (hm : event.httpMethod = "POST") (hv : isValidOf rt env event = true)
    (hp : rt.jsonParse (rawBodyOf event) = some data)
    (hi : (data.optChain "invoice_id").truthy = false) :
    handler rt w env event = (.response 400 "Invoice ID not found", []) := by
  unfold isValidOf at hv
  simp [handler, hm, hv, hp, hi]

theorem handler_no_token (rt : Runtime) (w : World) (env : Env) (event : HandlerEvent)
    (data : JVal) (hm : event.httpMethod = "POST") (hv : isValidOf rt env event = true)
    (hp : rt.jsonParse (rawBodyOf event) = some data)
    (hi : (data.optChain "invoice_id").truthy = true)
    (ht : orEmpty env.CRYPTOBOT_TOKEN = "") :
    handler rt w env event =
      (.response 500 "Server not configured: CRYPTOBOT_TOKEN missing", []) := by
  unfold isValidOf at hv
  simp [handler, hm, hv, hp, hi, ht]

theorem handler_no_status (rt : Runtime) (w : World) (env : Env) (event : HandlerEvent)
    (data : JVal) (hm : event.httpMethod = "POST") (hv : isValidOf rt env event = true)
    (hp : rt.jsonParse (rawBodyOf event) = some data)
    (hi : (data.optChain "invoice_id").truthy = true)
    (ht : orEmpty env.CRYPTOBOT_TOKEN ≠ "")
    (hc : (confirmedOf rt w env data).1.truthy = false) :
    handler rt w env event =
      (.response 400 "Payment info not found", (confirmedOf rt w env data).2) := by
  unfold isValidOf at hv
  unfold confirmedOf at hc ⊢
  simp [handler, hm, hv, hp, hi, ht, hc]

theorem handler_forward_rejected (rt : Runtime) (w : World) (env : Env) (event : HandlerEvent)
    (data : JVal) (hm : event.httpMethod = "POST") (hv : isValidOf rt env event = true)
    (hp : rt.jsonParse (rawBodyOf event) = some data)
    (hi : (data.optChain "invoice_id").truthy = true)
    (ht : orEmpty env.CRYPTOBOT_TOKEN ≠ "")
    (hc : (confirmedOf rt w env data).1.truthy = true)
    (hf : (forwardedOf w env event).1 = none) :
    handler rt w env event =
      (.rejected, (confirmedOf rt w env data).2 ++ (forwardedOf w env event).2) := by
  unfold isValidOf at hv
  unfold confirmedOf at hc ⊢
  unfold forwardedOf at hf ⊢
  simp [handler, hm, hv, hp, hi, ht, hc, hf]

theorem handler_forwarded (rt : Runtime) (w : World) (env : Env) (event : HandlerEvent)
    (data : JVal) (res : ForwardResult)
    (hm : event.httpMethod = "POST") (hv : isValidOf rt env event = true)
    (hp : rt.jsonParse (rawBodyOf event) = some data)
    (hi : (data.optChain "invoice_id").truthy = true)
    (ht : orEmpty env.CRYPTOBOT_TOKEN ≠ "")
    (hc : (confirmedOf rt w env data).1.truthy = true)
    (hf : (forwardedOf w env event).1 = some res) :
    handler rt w env event =
      match notifiedOf rt w env data with
      | none => (.rejected, (confirmedOf rt w env data).2 ++ (forwardedOf w env event).2)
      | some fx =>
        (finalResponse res, (confirmedOf rt w env data).2 ++ (forwardedOf w env event).2 ++ fx) := by
  unfold isValidOf at hv
  unfold notifiedOf
  cases hb : bothPaid rt w env data with
  | false =>
    unfold bothPaid at hb
    unfold confirmedOf at hc hb ⊢
    unfold forwardedOf at hf ⊢
    simp [handler, hm, hv, hp, hi, ht, hc, hf, hb]
  | true =>
    unfold bothPaid at hb
    unfold confirmedOf at hc hb ⊢
    unfold forwardedOf at hf ⊢
    cases hmsg : paidMessage rt data (data.optChain "invoice_id") <;>
      simp [handler, hm, hv, hp, hi, ht, hc, hf, hb, hmsg]

theorem handler_message_threw (rt : Runtime) (w : World) (env : Env) (event : HandlerEvent)
    (data : JVal) (res : ForwardResult)
    (hm : event.httpMethod = "POST") (hv : isValidOf rt env event = true)
    (hp : rt.jsonParse (rawBodyOf event) = some data)
    (hi : (data.optChain "invoice_id").truthy = true)
    (ht : orEmpty env.CRYPTOBOT_TOKEN ≠ "")
    (hc : (confirmedOf rt w env data).1.truthy = true)
    (hf : (forwardedOf w env event).1 = some res)
    (hn : notifiedOf rt w env data = none) :
    handler rt w env event =
      (.rejected, (confirmedOf rt w env data).2 ++ (forwardedOf w env event).2) := by
  rw [handler_forwarded rt w env event data res hm hv hp hi ht hc hf, hn]

theorem handler_answered (rt : Runtime) (w : World) (env : Env) (event : HandlerEvent)
    (data : JVal) (res : ForwardResult) (fx : List Effect)
    (hm : event.httpMethod = "POST") (hv : isValidOf rt env event = true)
    (hp : rt.jsonParse (rawBodyOf event) = some data)
    (hi : (data.optChain "invoice_id").truthy = true)
    (ht : orEmpty env.CRYPTOBOT_TOKEN ≠ "")
    (hc : (confirmedOf rt w env data).1.truthy = true)
    (hf : (forwardedOf w env event).1 = some res)
    (hn : notifiedOf rt w env data = some fx) :
    handler rt w env event =
      (finalResponse res,
        (confirmedOf rt w env data).2 ++ (forwardedOf w env event).2 ++ fx) := by
  rw [handler_forwarded rt w env event data res hm hv hp hi ht hc hf, hn]

theorem finalResponse_not_ok (res : ForwardResult) (h : res.ok = false) :
    finalResponse res =
      .response 502 ("Forward failed (" ++ toString res.status ++ "): " ++ orEmpty res.text) := by
  simp [finalResponse, h]

theorem finalResponse_ok (res : ForwardResult) (h : res.ok = true) :
    finalResponse res = .response 200 "Webhook processed and forwarded" := by
  simp [finalResponse, h]

theorem finalResponse_status (res : ForwardResult) :
    (finalResponse res).status = some (if res.ok = true then 200 else 502) := by
  cases h : res.ok <;> simp [finalResponse, h, Outcome.status]

/-! ## Effects of the three remote-call components -/

theorem orEmpty_eq_getD (s : Option String) : orEmpty s = s.getD "" := by
  cases s with
  | none => rfl
  | some v =>
    by_cases h : v = ""
    · simp [orEmpty, h]
    · simp [orEmpty, h]

theorem orEmpty_eq_empty_iff (s : Option String) :
    orEmpty s = "" ↔ s = none ∨ s = some "" := by
  cases s with
  | none => simp [orEmpty]
  | some v =>
    by_cases h : v = ""
    · simp [orEmpty, h]
    · simp [orEmpty, h]

theorem confirmedOf_effects (rt : Runtime) (w : World) (env : Env) (data : JVal) :
    notifierCalls (confirmedOf rt w env data).2 = 0 ∧
      (confirmedOf rt w env data).2.any Effect.isResolver = true ∧
      (confirmedOf rt w env data).2.any Effect.isForwarder = false := by
  simp [confirmedOf, getInvoiceStatus, notifierCalls, Effect.isNotifier, Effect.isResolver,
    Effect.isForwarder]

theorem forwardedOf_effects (w : World) (env : Env) (event : HandlerEvent) :
    notifierCalls (forwardedOf w env event).2 = 0 ∧
      (forwardedOf w env event).2.any Effect.isForwarder = true := by
  unfold forwardedOf forwardToBackend
  simp only
  split_ifs <;> (try split) <;> simp [notifierCalls, Effect.isNotifier, Effect.isForwarder]

theorem notifyTelegramAdmin_calls (rt : Runtime) (w : World) (message botToken adminId : String) :
    notifierCalls (notifyTelegramAdmin rt w message botToken adminId) = 1 := by
  unfold notifyTelegramAdmin
  simp only
  split_ifs
  · simp [notifierCalls, Effect.isNotifier]
  · split <;> simp [notifierCalls, Effect.isNotifier]

theorem notifiedOf_calls (rt : Runtime) (w : World) (env : Env) (data : JVal)
    (fx : List Effect) (h : notifiedOf rt w env data = some fx) :
    notifierCalls fx = if bothPaid rt w env data then 1 else 0 := by
  unfold notifiedOf at h
  split_ifs at h with hb
  · cases hmsg : paidMessage rt data (data.optChain "invoice_id") with
    | none => simp [hmsg] at h
    | some message =>
      simp only [hmsg, Option.some.injEq] at h
      rw [← h, if_pos hb]
      exact notifyTelegramAdmin_calls _ _ _ _ _
  · simp only [Option.some.injEq] at h
    rw [← h, if_neg hb]
    rfl

theorem notifiedOf_none_iff (rt : Runtime) (w : World) (env : Env) (data : JVal) :
    notifiedOf rt w env data = none ↔
      bothPaid rt w env data = true ∧
        paidMessage rt data (data.optChain "invoice_id") = none := by
  unfold notifiedOf
  split_ifs with hb
  · cases hmsg : paidMessage rt data (data.optChain "invoice_id") <;> simp [hb]
  · simp [hb]

theorem notifierCalls_append (a b : List Effect) :
    notifierCalls (a ++ b) = notifierCalls a + notifierCalls b := by
  simp [notifierCalls]

theorem any_isNotifier_iff (effects : List Effect) :
    effects.any Effect.isNotifier = true ↔ 0 < notifierCalls effects := by
  simp [notifierCalls, List.length_pos, List.any_eq_true, List.filter_eq_nil_iff]

theorem strictEqStr_iff (v : JVal) (lit : String) :
    v.strictEqStr lit = true ↔ v = .str lit := by
  cases v <;> simp [JVal.strictEqStr]

theorem bothPaid_iff (rt : Runtime) (w : World) (env : Env) (data : JVal) :
    bothPaid rt w env data = true ↔
      data.optChain "status" = .str "paid" ∧ (confirmedOf rt w env data).1 = .str "paid" := by
  simp [bothPaid, strictEqStr_iff]

/-- The resolver yields `null` or a truthy value. -/
theorem getInvoiceStatus_null_or_truthy (rt : Runtime) (w : World) (invoiceId : JVal)
    (token : String) :
    (getInvoiceStatus rt w invoiceId token).1 = .null ∨
      (getInvoiceStatus rt w invoiceId token).1.truthy = true := by
  unfold getInvoiceStatus
  simp only
  split
  · exact Or.inl rfl
  · split_ifs
    · exact Or.inl rfl
    · split
      · exact Or.inl rfl
      · split_ifs
        · exact Or.inl rfl
        · exact Or.inl rfl
        · unfold JVal.orElse
          split_ifs with h
          · exact Or.inr h
          · exact Or.inl rfl

theorem confirmedOf_truthy_iff (rt : Runtime) (w : World) (env : Env) (data : JVal) :
    (confirmedOf rt w env data).1.truthy = true ↔ (confirmedOf rt w env data).1 ≠ .null := by
  unfold confirmedOf
  rcases getInvoiceStatus_null_or_truthy rt w (data.optChain "invoice_id")
    (orEmpty env.CRYPTOBOT_TOKEN) with h | h
  · rw [h]
    simp [JVal.truthy]
  · constructor
    · intro _ hn
      rw [hn] at h
      simp [JVal.truthy] at h
    · intro _
      exact h

/-- Every invocation leaves the pipeline through one of its nine exits. -/
theorem handler_exits (rt : Runtime) (w : World) (env : Env) (event : HandlerEvent) :
    (event.httpMethod ≠ "POST" ∧
      handler rt w env event = (.response 405 "Method Not Allowed", [])) ∨
    (event.httpMethod = "POST" ∧ isValidOf rt env event = false ∧
      handler rt w env event = (.response 401 "Invalid signature", [])) ∨
    (event.httpMethod = "POST" ∧ isValidOf rt env event = true ∧
      rt.jsonParse (rawBodyOf event) = none ∧
      handler rt w env event = (.response 400 "Invalid JSON", [])) ∨
    (∃ data, event.httpMethod = "POST" ∧ isValidOf rt env event = true ∧
      rt.jsonParse (rawBodyOf event) = some data ∧
      (data.optChain "invoice_id").truthy = false ∧
      handler rt w env event = (.response 400 "Invoice ID not found", [])) ∨
    (∃ data, event.httpMethod = "POST" ∧ isValidOf rt env event = true ∧
      rt.jsonParse (rawBodyOf event) = some data ∧
      (data.optChain "invoice_id").truthy = true ∧ orEmpty env.CRYPTOBOT_TOKEN = "" ∧
      handler rt w env event =
        (.response 500 "Server not configured: CRYPTOBOT_TOKEN missing", [])) ∨
    (∃ data, event.httpMethod = "POST" ∧ isValidOf rt env event = true ∧
      rt.jsonParse (rawBodyOf event) = some data ∧
      (data.optChain "invoice_id").truthy = true ∧ orEmpty env.CRYPTOBOT_TOKEN ≠ "" ∧
      (confirmedOf rt w env data).1.truthy = false ∧
      handler rt w env event =
        (.response 400 "Payment info not found", (confirmedOf rt w env data).2)) ∨
    (∃ data, event.httpMethod = "POST" ∧ isValidOf rt env event = true ∧
      rt.jsonParse (rawBodyOf event) = some data ∧
      (data.optChain "invoice_id").truthy = true ∧ orEmpty env.CRYPTOBOT_TOKEN ≠ "" ∧
      (confirmedOf rt w env data).1.truthy = true ∧ (forwardedOf w env event).1 = none ∧
      handler rt w env event =
        (.rejected, (confirmedOf rt w env data).2 ++ (forwardedOf w env event).2)) ∨
    (∃ data res, event.httpMethod = "POST" ∧ isValidOf rt env event = true ∧
      rt.jsonParse (rawBodyOf event) = some data ∧
      (data.optChain "invoice_id").truthy = true ∧ orEmpty env.CRYPTOBOT_TOKEN ≠ "" ∧
      (confirmedOf rt w env data).1.truthy = true ∧ (forwardedOf w env event).1 = some res ∧
      notifiedOf rt w env data = none ∧
      handler rt w env event =
        (.rejected, (confirmedOf rt w env data).2 ++ (forwardedOf w env event).2)) ∨
    (∃ data res fx, event.httpMethod = "POST" ∧ isValidOf rt env event = true ∧
      rt.jsonParse (rawBodyOf event) = some data ∧
      (data.optChain "invoice_id").truthy = true ∧ orEmpty env.CRYPTOBOT_TOKEN ≠ "" ∧
      (confirmedOf rt w env data).1.truthy = true ∧ (forwardedOf w env event).1 = some res ∧
      notifiedOf rt w env data = some fx ∧
      handler rt w env event =
        (finalResponse res,
          (confirmedOf rt w env data).2 ++ (forwardedOf w env event).2 ++ fx)) := by
  by_cases hm : event.httpMethod = "POST"
  · right
    cases hv : isValidOf rt env event with
    | false => exact Or.inl ⟨hm, rfl, handler_bad_signature rt w env event hm hv⟩
    | true =>
      right
      cases hp : rt.jsonParse (rawBodyOf event) with
      | none => exact Or.inl ⟨hm, rfl, rfl, handler_bad_json rt w env event hm hv hp⟩
      | some data =>
        right
        cases hi : (data.optChain "invoice_id").truthy with
        | false => exact Or.inl ⟨data, hm, rfl, rfl, hi, handler_no_invoice rt w env event data hm hv hp hi⟩
        | true =>
          right
          by_cases ht : orEmpty env.CRYPTOBOT_TOKEN = ""
          · exact Or.inl ⟨data, hm, rfl, rfl, hi, ht,
              handler_no_token rt w env event data hm hv hp hi ht⟩
          · right
            cases hc : (confirmedOf rt w env data).1.truthy with
            | false =>
              exact Or.inl ⟨data, hm, rfl, rfl, hi, ht, hc,
                handler_no_status rt w env event data hm hv hp hi ht hc⟩
            | true =>
              right
              cases hf : (forwardedOf w env event).1 with
              | none =>
                exact Or.inl ⟨data, hm, rfl, rfl, hi, ht, hc, rfl,
                  handler_forward_rejected rt w env event data hm hv hp hi ht hc hf⟩
              | some res =>
                right
                cases hn : notifiedOf rt w env data with
                | none =>
                  exact Or.inl ⟨data, res, hm, rfl, rfl, hi, ht, hc, rfl, hn,
                    handler_message_threw rt w env event data res hm hv hp hi ht hc hf hn⟩
                | some fx =>
                  exact Or.inr ⟨data, res, fx, hm, rfl, rfl, hi, ht, hc, rfl, hn,
                    handler_answered rt w env event data res fx hm hv hp hi ht hc hf hn⟩
  · exact Or.inl ⟨hm, handler_wrong_method rt w env event hm⟩

/-! ## Signature verification -/

/-- C1: for a non-empty secret, any raw body and any signature header value
(an absent one counting as the empty string), `verifySignature` returns true
exactly when the signature is the lowercase hex encoding of the 32-byte
HMAC-SHA256 of the body's UTF-8 bytes under the secret's UTF-8 bytes; an
absent signature and an empty signature are both rejected. -/
theorem verifySignature_iff_hex_hmac (hmac : List Nat → List Nat → List Nat)
    (h32 : ∀ key msg, (hmac key msg).length = 32)
    (rawBody : String) (signature : Option String) (secret : String) (hs : secret ≠ "") :
    (verifySignature hmac rawBody signature secret = true ↔
      signature.getD "" =
        hexEncode (hmac (bufferFromUtf8 secret) (bufferFromUtf8 rawBody))) ∧
    verifySignature hmac rawBody none secret = false ∧
    verifySignature hmac rawBody (some "") secret = false := by
  have hne : "" ≠ hexEncode (hmac (bufferFromUtf8 secret) (bufferFromUtf8 rawBody)) := by
    intro h
    have hl := congrArg String.length h
    rw [hexEncode_length, h32] at hl
    simp at hl
  refine ⟨?_, ?_, ?_⟩
  · rw [verifySignature_configured hmac rawBody signature secret hs, orEmpty_eq_getD]
  · rw [← Bool.not_eq_true, verifySignature_configured hmac rawBody none secret hs]
    exact hne
  · rw [← Bool.not_eq_true, verifySignature_configured hmac rawBody (some "") secret hs]
    exact hne

theorem verifySignature_iff_hex_hmac_witness :
    (∀ key msg, (sampleHmac key msg).length = 32) ∧ "secret" ≠ "" ∧
    ((verifySignature sampleHmac paidBody (some "abc") "secret" = true ↔
      (some "abc").getD "" =
        hexEncode (sampleHmac (bufferFromUtf8 "secret") (bufferFromUtf8 paidBody))) ∧
    verifySignature sampleHmac paidBody none "secret" = false ∧
    verifySignature sampleHmac paidBody (some "") "secret" = false) :=
  ⟨fun _ _ => List.length_replicate _ _, by decide,
    verifySignature_iff_hex_hmac sampleHmac (fun _ _ => List.length_replicate _ _)
      paidBody (some "abc") "secret" (by decide)⟩

/-- C2: with an empty secret `verifySignature` returns true for every raw body
and every signature header value, and when WEBHOOK_SECRET is unset or empty the
handler never answers 401. -/
theorem handler_never_401_without_secret (rt : Runtime) (w : World) (env : Env)
    (event : HandlerEvent) (rawBody : String) (signature : Option String)
    (h : env.WEBHOOK_SECRET = none ∨ env.WEBHOOK_SECRET = some "") :
    verifySignature rt.hmac rawBody signature "" = true ∧
      (handler rt w env event).1.status ≠ some 401 := by
  refine ⟨verifySignature_unconfigured _ _ _, ?_⟩
  have hv : isValidOf rt env event = true := by
    unfold isValidOf
    rw [(orEmpty_eq_empty_iff _).mpr h]
    exact verifySignature_unconfigured _ _ _
  rcases handler_exits rt w env event with ⟨_, he⟩ | ⟨_, hf, _⟩ | ⟨_, _, _, he⟩ |
    ⟨_, _, _, _, _, he⟩ | ⟨_, _, _, _, _, _, he⟩ | ⟨_, _, _, _, _, _, _, he⟩ |
    ⟨_, _, _, _, _, _, _, _, he⟩ | ⟨_, _, _, _, _, _, _, _, _, _, he⟩ |
    ⟨_, res, _, _, _, _, _, _, _, _, _, he⟩
  · rw [he]; simp [Outcome.status]
  · rw [hv] at hf; exact absurd hf (by simp)
  · rw [he]; simp [Outcome.status]
  · rw [he]; simp [Outcome.status]
  · rw [he]; simp [Outcome.status]
  · rw [he]; simp [Outcome.status]
  · rw [he]; simp [Outcome.status]
  · rw [he]; simp [Outcome.status]
  · rw [he]
    simp only [finalResponse_status]
    cases res.ok <;> simp

theorem handler_never_401_without_secret_witness :
    (envTokenOnly.WEBHOOK_SECRET = none ∨ envTokenOnly.WEBHOOK_SECRET = some "") ∧
    (verifySignature sampleRuntime.hmac paidBody (some "forged") "" = true ∧
      (handler sampleRuntime worldAllOk envTokenOnly (postOf paidBody)).1.status ≠ some 401) :=
  ⟨Or.inl rfl, handler_never_401_without_secret sampleRuntime worldAllOk envTokenOnly
    (postOf paidBody) paidBody (some "forged") (Or.inl rfl)⟩

/-- C3: for a POST with a non-empty webhook secret configured, if the verifier
returns false the handler answers 401 'Invalid signature' and performs no
effect at all, whatever the body and the rest of the configuration are: none of
the status lookup, the forward and the notification is made. -/
theorem handler_401_on_bad_signature (rt : Runtime) (w : World) (env : Env)
    (event : HandlerEvent) (secret : String)
    (hm : event.httpMethod = "POST")
    (hs : env.WEBHOOK_SECRET = some secret) (hne : secret ≠ "")
    (hv : verifySignature rt.hmac (rawBodyOf event) (some (signatureOf event)) secret = false) :
    (handler rt w env event).1 = .response 401 "Invalid signature" ∧
      (handler rt w env event).2 = [] ∧
      remoteCalls (handler rt w env event).2 = 0 := by
  have hv2 : isValidOf rt env event = false := by
    unfold isValidOf
    rw [hs]
    simpa [orEmpty, hne] using hv
  rw [handler_bad_signature rt w env event hm hv2]
  exact ⟨rfl, rfl, rfl⟩

theorem handler_401_on_bad_signature_witness :
    (postOf paidBody).httpMethod = "POST" ∧ envWithSecret.WEBHOOK_SECRET = some "secret" ∧
    "secret" ≠ "" ∧
    verifySignature sampleRuntime.hmac (rawBodyOf (postOf paidBody))
      (some (signatureOf (postOf paidBody))) "secret" = false ∧
    ((handler sampleRuntime worldAllOk envWithSecret (postOf paidBody)).1 =
        .response 401 "Invalid signature" ∧
      (handler sampleRuntime worldAllOk envWithSecret (postOf paidBody)).2 = [] ∧
      remoteCalls (handler sampleRuntime worldAllOk envWithSecret (postOf paidBody)).2 = 0) :=
  ⟨rfl, rfl, by decide, by decide,
    handler_401_on_bad_signature sampleRuntime worldAllOk envWithSecret (postOf paidBody)
      "secret" rfl rfl (by decide) (by decide)⟩

/-- C7: for a POST whose signature verifies and whose body parses as JSON with
a truthy invoice_id, if the provider API token is unset or empty the handler
answers 500 and performs no effect: the status resolver, the forwarder and the
notifier are not invoked and no outbound call is made. -/
theorem handler_500_without_token (rt : Runtime) (w : World) (env : Env)
    (event : HandlerEvent) (data : JVal)
    (hm : event.httpMethod = "POST")
    (hv : verifySignature rt.hmac (rawBodyOf event) (some (signatureOf event))
      (orEmpty env.WEBHOOK_SECRET) = true)
    (hp : rt.jsonParse (rawBodyOf event) = some data)
    (hi : (data.optChain "invoice_id").truthy = true)
    (ht : env.CRYPTOBOT_TOKEN = none ∨ env.CRYPTOBOT_TOKEN = some "") :
    (handler rt w env event).1.status = some 500 ∧
      (handler rt w env event).2 = [] ∧
      (handler rt w env event).2.any Effect.isResolver = false ∧
      (handler rt w env event).2.any Effect.isForwarder = false ∧
      (handler rt w env event).2.any Effect.isNotifier = false ∧
      remoteCalls (handler rt w env event).2 = 0 := by
  rw [handler_no_token rt w env event data hm hv hp hi ((orEmpty_eq_empty_iff _).mpr ht)]
  exact ⟨rfl, rfl, rfl, rfl, rfl, rfl⟩

theorem handler_500_without_token_witness :
    (postOf paidBody).httpMethod = "POST" ∧
    verifySignature sampleRuntime.hmac (rawBodyOf (postOf paidBody))
      (some (signatureOf (postOf paidBody))) (orEmpty envEmpty.WEBHOOK_SECRET) = true ∧
    sampleRuntime.jsonParse (rawBodyOf (postOf paidBody)) = some paidData ∧
    (paidData.optChain "invoice_id").truthy = true ∧
    (envEmpty.CRYPTOBOT_TOKEN = none ∨ envEmpty.CRYPTOBOT_TOKEN = some "") ∧
    ((handler sampleRuntime worldAllOk envEmpty (postOf paidBody)).1.status = some 500 ∧
      (handler sampleRuntime worldAllOk envEmpty (postOf paidBody)).2 = [] ∧
      (handler sampleRuntime worldAllOk envEmpty (postOf paidBody)).2.any Effect.isResolver
        = false ∧
      (handler sampleRuntime worldAllOk envEmpty (postOf paidBody)).2.any Effect.isForwarder
        = false ∧
      (handler sampleRuntime worldAllOk envEmpty (postOf paidBody)).2.any Effect.isNotifier
        = false ∧
      remoteCalls (handler sampleRuntime worldAllOk envEmpty (postOf paidBody)).2 = 0) :=
  ⟨rfl, by decide, rfl, by decide, Or.inl rfl,
    handler_500_without_token sampleRuntime worldAllOk envEmpty (postOf paidBody)
      paidData rfl (by decide) rfl (by decide) (Or.inl rfl)⟩

/-! ## Response codes -/

/-- Whenever the handler returns a response, its status code is 200 exactly
when every pipeline step passed, and it is one of 400, 401, 405, 500 and 502
when some step did not pass. -/
theorem handler_response_code (rt : Runtime) (w : World) (env : Env)
    (event : HandlerEvent) (code : Nat) (body : String)
    (h : (handler rt w env event).1 = .response code body) :
    (code = 200 ↔ allStepsPassed rt w env event) ∧
      (allStepsPassed rt w env event ∨
        code = 400 ∨ code = 401 ∨ code = 405 ∨ code = 500 ∨ code = 502) := by
  rcases handler_exits rt w env event with ⟨hm, he⟩ | ⟨_, hv, he⟩ | ⟨_, _, hp, he⟩ |
    ⟨data, _, _, hp, hi, he⟩ | ⟨data, _, _, hp, _, ht, he⟩ |
    ⟨data, _, _, hp, _, _, hc, he⟩ | ⟨data, _, _, _, _, _, _, _, he⟩ |
    ⟨data, res, _, _, _, _, _, _, _, _, he⟩ |
    ⟨data, res, fx, hm, hv, hp, hi, ht, hc, hf, _, he⟩
  · rw [he] at h
    simp only [Outcome.response.injEq] at h
    refine ⟨⟨fun hc => by omega, fun hall => absurd hall.1 hm⟩, by omega⟩
  · rw [he] at h
    simp only [Outcome.response.injEq] at h
    refine ⟨⟨fun hc => by omega, fun hall => ?_⟩, by omega⟩
    rw [hall.2.1] at hv
    exact absurd hv (by simp)
  · rw [he] at h
    simp only [Outcome.response.injEq] at h
    refine ⟨⟨fun hc => by omega, fun hall => ?_⟩, by omega⟩
    obtain ⟨_, _, d, hd, _⟩ := hall
    rw [hp] at hd
    exact absurd hd (by simp)
  · rw [he] at h
    simp only [Outcome.response.injEq] at h
    refine ⟨⟨fun hc => by omega, fun hall => ?_⟩, by omega⟩
    obtain ⟨_, _, d, hd, hdi, _⟩ := hall
    rw [hp] at hd
    cases hd
    rw [hi] at hdi
    exact absurd hdi (by simp)
  · rw [he] at h
    simp only [Outcome.response.injEq] at h
    refine ⟨⟨fun hc => by omega, fun hall => ?_⟩, by omega⟩
    obtain ⟨_, _, d, _, _, hdt, _⟩ := hall
    exact absurd ht hdt
  · rw [he] at h
    simp only [Outcome.response.injEq] at h
    refine ⟨⟨fun hc => by omega, fun hall => ?_⟩, by omega⟩
    obtain ⟨_, _, d, hd, _, _, hdc, _⟩ := hall
    rw [hp] at hd
    cases hd
    rw [← confirmedOf_truthy_iff, hc] at hdc
    exact absurd hdc (by simp)
  · rw [he] at h
    exact absurd h (by simp)
  · rw [he] at h
    exact absurd h (by simp)
  · rw [he] at h
    cases hok : res.ok with
    | false =>
      rw [finalResponse_not_ok res hok] at h
      simp only [Outcome.response.injEq] at h
      refine ⟨⟨fun hc => by omega, fun hall => ?_⟩, by omega⟩
      obtain ⟨_, _, d, _, _, _, _, r, hr, hrok⟩ := hall
      rw [hf] at hr
      cases hr
      rw [hok] at hrok
      exact absurd hrok (by simp)
    | true =>
      rw [finalResponse_ok res hok] at h
      simp only [Outcome.response.injEq] at h
      have hall : allStepsPassed rt w env event :=
        ⟨hm, hv, data, hp, hi, ht, (confirmedOf_truthy_iff rt w env data).mp hc, res, hf, hok⟩
      exact ⟨⟨fun _ => hall, fun _ => h.1.symm⟩, Or.inl hall⟩

/-- C4 at the body `{"invoice_id":123,"status":"paid","amount":{"toString":null}}`
with the provider confirming "paid" and no forward URL: every pipeline step
passed and the forwarder returned an ok result without a transport error, yet
the handler returns no response, because the template literal of line 127
throws before the response is built. -/
theorem all_steps_passed_without_response :
    allStepsPassed sampleRuntime worldAllOk envTokenOnly (postOf brokenAmountBody) ∧
    (forwardedOf worldAllOk envTokenOnly (postOf brokenAmountBody)).1 =
      some ⟨true, 204, none⟩ ∧
    paidMessage sampleRuntime brokenAmountData (brokenAmountData.optChain "invoice_id") = none ∧
    (handler sampleRuntime worldAllOk envTokenOnly (postOf brokenAmountBody)).1 = .rejected ∧
    (handler sampleRuntime worldAllOk envTokenOnly (postOf brokenAmountBody)).1.status ≠
      some 200 := by
  refine ⟨⟨by decide, by decide, brokenAmountData, rfl, by decide, by decide, ?_,
    ⟨true, 204, none⟩, rfl, rfl⟩, rfl, by decide, by decide, by decide⟩
  intro h
  have h2 : JVal.str "paid" = JVal.null := h
  cases h2

/-! ## The notifier and the response -/

theorem isValidOf_congr (rt : Runtime) (env1 env2 : Env) (event : HandlerEvent)
    (h : env1.WEBHOOK_SECRET = env2.WEBHOOK_SECRET) :
    isValidOf rt env1 event = isValidOf rt env2 event := by
  unfold isValidOf
  rw [h]

theorem confirmedOf_congr (rt : Runtime) (w1 w2 : World) (env1 env2 : Env) (data : JVal)
    (hl : w1.lookup = w2.lookup) (h : env1.CRYPTOBOT_TOKEN = env2.CRYPTOBOT_TOKEN) :
    confirmedOf rt w1 env1 data = confirmedOf rt w2 env2 data := by
  unfold confirmedOf getInvoiceStatus
  rw [hl, h]

theorem notifiedOf_none_congr (rt : Runtime) (w1 w2 : World) (env1 env2 : Env) (data : JVal)
    (hl : w1.lookup = w2.lookup) (h : env1.CRYPTOBOT_TOKEN = env2.CRYPTOBOT_TOKEN) :
    notifiedOf rt w1 env1 data = none ↔ notifiedOf rt w2 env2 data = none := by
  rw [notifiedOf_none_iff, notifiedOf_none_iff]
  unfold bothPaid
  rw [confirmedOf_congr rt w1 w2 env1 env2 data hl h]

theorem forwardedOf_congr (w1 w2 : World) (env1 env2 : Env) (event : HandlerEvent)
    (hf : w1.forward = w2.forward) (h3 : env1.FORWARD_URL = env2.FORWARD_URL)
    (h4 : env1.RELAY_TOKEN = env2.RELAY_TOKEN) :
    forwardedOf w1 env1 event = forwardedOf w2 env2 event := by
  unfold forwardedOf forwardToBackend
  rw [hf, h3, h4]

/-- C10: two invocations that agree on the request, on the webhook secret, the
provider token, the forward URL and the relay token, and on the answers of the
status lookup and of the forward call, end with the same outcome (same status
code and body), whatever the bot token, the recipient id and the answer of the
notification call are; and the notifier makes no remote call when the bot token
or the recipient id is empty. -/
theorem notifier_never_affects_response (rt : Runtime) (w1 w2 : World) (env1 env2 : Env)
    (event : HandlerEvent) (message botToken adminId : String)
    (hl : ∀ req, w1.lookup req = w2.lookup req)
    (hf : ∀ req, w1.forward req = w2.forward req)
    (h1 : env1.WEBHOOK_SECRET = env2.WEBHOOK_SECRET)
    (h2 : env1.CRYPTOBOT_TOKEN = env2.CRYPTOBOT_TOKEN)
    (h3 : env1.FORWARD_URL = env2.FORWARD_URL)
    (h4 : env1.RELAY_TOKEN = env2.RELAY_TOKEN) :
    (handler rt w1 env1 event).1 = (handler rt w2 env2 event).1 ∧
      ((botToken = "" ∨ adminId = "") →
        remoteCalls (notifyTelegramAdmin rt w1 message botToken adminId) = 0) := by
  have hl2 : w1.lookup = w2.lookup := funext hl
  have hf2 : w1.forward = w2.forward := funext hf
  have e1 := isValidOf_congr rt env1 env2 event h1
  have e2 := fun data => confirmedOf_congr rt w1 w2 env1 env2 data hl2 h2
  have e3 := forwardedOf_congr w1 w2 env1 env2 event hf2 h3 h4
  refine ⟨?_, ?_⟩
  · rcases handler_exits rt w1 env1 event with ⟨hm, he⟩ | ⟨hm, hv, he⟩ | ⟨hm, hv, hp, he⟩ |
      ⟨data, hm, hv, hp, hi, he⟩ | ⟨data, hm, hv, hp, hi, ht, he⟩ |
      ⟨data, hm, hv, hp, hi, ht, hc, he⟩ | ⟨data, hm, hv, hp, hi, ht, hc, hfw, he⟩ |
      ⟨data, res, hm, hv, hp, hi, ht, hc, hfw, hn, he⟩ |
      ⟨data, res, fx, hm, hv, hp, hi, ht, hc, hfw, hn, he⟩
    · rw [he, handler_wrong_method rt w2 env2 event hm]
    · rw [e1] at hv
      rw [he, handler_bad_signature rt w2 env2 event hm hv]
    · rw [e1] at hv
      rw [he, handler_bad_json rt w2 env2 event hm hv hp]
    · rw [e1] at hv
      rw [he, handler_no_invoice rt w2 env2 event data hm hv hp hi]
    · rw [e1] at hv
      rw [h2] at ht
      rw [he, handler_no_token rt w2 env2 event data hm hv hp hi ht]
    · rw [e1] at hv
      rw [h2] at ht
      rw [e2] at hc
      rw [he, handler_no_status rt w2 env2 event data hm hv hp hi ht hc]
    · rw [e1] at hv
      rw [h2] at ht
      rw [e2] at hc
      rw [e3] at hfw
      rw [he, handler_forward_rejected rt w2 env2 event data hm hv hp hi ht hc hfw]
    · rw [e1] at hv
      rw [h2] at ht
      rw [e2] at hc
      rw [e3] at hfw
      rw [notifiedOf_none_congr rt w1 w2 env1 env2 data hl2 h2] at hn
      rw [he, handler_message_threw rt w2 env2 event data res hm hv hp hi ht hc hfw hn]
    · rw [e1] at hv
      rw [h2] at ht
      rw [e2] at hc
      rw [e3] at hfw
      cases hn2 : notifiedOf rt w2 env2 data with
      | none =>
        rw [← notifiedOf_none_congr rt w1 w2 env1 env2 data hl2 h2, hn] at hn2
        exact absurd hn2 (by simp)
      | some fx2 =>
        rw [he, handler_answered rt w2 env2 event data res fx2 hm hv hp hi ht hc hfw hn2]
  · intro hmiss
    unfold notifyTelegramAdmin
    rw [if_pos hmiss]
    rfl

theorem notifier_never_affects_response_witness :
    (∀ req, worldAllOk.lookup req = worldNotifyDown.lookup req) ∧
    (∀ req, worldAllOk.forward req = worldNotifyDown.forward req) ∧
    (handler sampleRuntime worldAllOk envTokenOnly (postOf paidBody)).1 =
      (handler sampleRuntime worldNotifyDown envWithNotifier (postOf paidBody)).1 ∧
    ("" = "" ∨ "42" = "") ∧
    remoteCalls (notifyTelegramAdmin sampleRuntime worldAllOk "paid" "" "42") = 0 :=
  ⟨fun _ => rfl, fun _ => rfl,
    (notifier_never_affects_response sampleRuntime worldAllOk worldNotifyDown envTokenOnly
      envWithNotifier (postOf paidBody) "paid" "" "42" (fun _ => rfl) (fun _ => rfl)
      rfl rfl rfl rfl).1,
    Or.inl rfl,
    (notifier_never_affects_response sampleRuntime worldAllOk worldNotifyDown envTokenOnly
      envWithNotifier (postOf paidBody) "paid" "" "42" (fun _ => rfl) (fun _ => rfl)
      rfl rfl rfl rfl).2 (Or.inl rfl)⟩

/-! ## The signature header -/

/-- C9 at a header map that carries the correct signature under an upper-case
name: the handler reads an empty signature and answers 401, while the same
signature under the lower-case name is accepted and the request is processed. -/
theorem uppercase_signature_header_rejected :
    verifySignature sampleHmac paidBody (some paidSignature) "secret" = true ∧
    signatureOf (signedPost "X-CRYPTO-PAY-API-SIGNATURE") = "" ∧
    (handler sampleRuntime worldAllOk envWithSecret
        (signedPost "X-CRYPTO-PAY-API-SIGNATURE")).1 = .response 401 "Invalid signature" ∧
    (handler sampleRuntime worldAllOk envWithSecret
        (signedPost "x-crypto-pay-api-signature")).1 =
      .response 200 "Webhook processed and forwarded" := by
  decide

/-! ## When the notifier runs -/

theorem handler_reached_resolver (rt : Runtime) (w : World) (env : Env) (event : HandlerEvent)
    (h : (handler rt w env event).2.any Effect.isResolver = true) :
    ∃ data, event.httpMethod = "POST" ∧ isValidOf rt env event = true ∧
      rt.jsonParse (rawBodyOf event) = some data ∧
      (data.optChain "invoice_id").truthy = true ∧ orEmpty env.CRYPTOBOT_TOKEN ≠ "" := by
  rcases handler_exits rt w env event with ⟨_, he⟩ | ⟨_, _, he⟩ | ⟨_, _, _, he⟩ |
    ⟨_, _, _, _, _, he⟩ | ⟨_, _, _, _, _, _, he⟩ |
    ⟨data, hm, hv, hp, hi, ht, _, _⟩ | ⟨data, hm, hv, hp, hi, ht, _, _, _⟩ |
    ⟨data, _, hm, hv, hp, hi, ht, _, _, _, _⟩ |
    ⟨data, _, _, hm, hv, hp, hi, ht, _, _, _, _⟩
  · rw [he] at h; simp at h
  · rw [he] at h; simp at h
  · rw [he] at h; simp at h
  · rw [he] at h; simp at h
  · rw [he] at h; simp at h
  · exact ⟨data, hm, hv, hp, hi, ht⟩
  · exact ⟨data, hm, hv, hp, hi, ht⟩
  · exact ⟨data, hm, hv, hp, hi, ht⟩
  · exact ⟨data, hm, hv, hp, hi, ht⟩

theorem handler_reached_forwarder (rt : Runtime) (w : World) (env : Env) (event : HandlerEvent)
    (h : (handler rt w env event).2.any Effect.isForwarder = true) :
    ∃ data, event.httpMethod = "POST" ∧ isValidOf rt env event = true ∧
      rt.jsonParse (rawBodyOf event) = some data ∧
      (data.optChain "invoice_id").truthy = true ∧ orEmpty env.CRYPTOBOT_TOKEN ≠ "" ∧
      (confirmedOf rt w env data).1.truthy = true := by
  rcases handler_exits rt w env event with ⟨_, he⟩ | ⟨_, _, he⟩ | ⟨_, _, _, he⟩ |
    ⟨_, _, _, _, _, he⟩ | ⟨_, _, _, _, _, _, he⟩ |
    ⟨data, _, _, _, _, _, _, he⟩ | ⟨data, hm, hv, hp, hi, ht, hc, _, _⟩ |
    ⟨data, _, hm, hv, hp, hi, ht, hc, _, _, _⟩ |
    ⟨data, _, _, hm, hv, hp, hi, ht, hc, _, _, _⟩
  · rw [he] at h; simp at h
  · rw [he] at h; simp at h
  · rw [he] at h; simp at h
  · rw [he] at h; simp at h
  · rw [he] at h; simp at h
  · rw [he] at h
    rw [(confirmedOf_effects rt w env data).2.2] at h
    exact absurd h (by simp)
  · exact ⟨data, hm, hv, hp, hi, ht, hc⟩
  · exact ⟨data, hm, hv, hp, hi, ht, hc⟩
  · exact ⟨data, hm, hv, hp, hi, ht, hc⟩

/-- The notifier count of an invocation that went through the notification step. -/
theorem handler_answered_calls (rt : Runtime) (w : World) (env : Env) (event : HandlerEvent)
    (data : JVal) (res : ForwardResult) (fx : List Effect)
    (hm : event.httpMethod = "POST") (hv : isValidOf rt env event = true)
    (hp : rt.jsonParse (rawBodyOf event) = some data)
    (hi : (data.optChain "invoice_id").truthy = true)
    (ht : orEmpty env.CRYPTOBOT_TOKEN ≠ "")
    (hc : (confirmedOf rt w env data).1.truthy = true)
    (hf : (forwardedOf w env event).1 = some res)
    (hn : notifiedOf rt w env data = some fx) :
    notifierCalls (handler rt w env event).2 = if bothPaid rt w env data then 1 else 0 := by
  rw [handler_answered rt w env event data res fx hm hv hp hi ht hc hf hn]
  simp only [notifierCalls_append, (confirmedOf_effects rt w env data).1,
    (forwardedOf_effects w env event).1, notifiedOf_calls rt w env data fx hn]
  omega

/-- The notification step of an invocation whose statuses are not both "paid",
or whose notification text is built. -/
theorem notifiedOf_some (rt : Runtime) (w : World) (env : Env) (data : JVal)
    (h : bothPaid rt w env data = false ∨
      ∃ message, paidMessage rt data (data.optChain "invoice_id") = some message) :
    ∃ fx, notifiedOf rt w env data = some fx := by
  cases hn : notifiedOf rt w env data with
  | some fx => exact ⟨fx, rfl⟩
  | none =>
    obtain ⟨hb, hmsg⟩ := (notifiedOf_none_iff rt w env data).mp hn
    rcases h with h | ⟨message, h⟩
    · rw [hb] at h
      exact absurd h (by simp)
    · rw [hmsg] at h
      exact absurd h (by simp)

/-- The notifier count is positive only at the last exit of the pipeline, with
both statuses equal to "paid". -/
theorem handler_notified_cases (rt : Runtime) (w : World) (env : Env) (event : HandlerEvent)
    (h : 0 < notifierCalls (handler rt w env event).2) :
    ∃ data res, rt.jsonParse (rawBodyOf event) = some data ∧
      (forwardedOf w env event).1 = some res ∧ bothPaid rt w env data = true ∧
      notifierCalls (handler rt w env event).2 = 1 ∧
      (handler rt w env event).1 = finalResponse res := by
  rcases handler_exits rt w env event with ⟨_, he⟩ | ⟨_, _, he⟩ | ⟨_, _, _, he⟩ |
    ⟨_, _, _, _, _, he⟩ | ⟨_, _, _, _, _, _, he⟩ |
    ⟨data, _, _, _, _, _, _, he⟩ | ⟨data, _, _, _, _, _, _, _, he⟩ |
    ⟨data, _, _, _, _, _, _, _, _, _, he⟩ |
    ⟨data, res, fx, hm, hv, hp, hi, ht, hc, hf, hn, he⟩
  · rw [he] at h; simp [notifierCalls] at h
  · rw [he] at h; simp [notifierCalls] at h
  · rw [he] at h; simp [notifierCalls] at h
  · rw [he] at h; simp [notifierCalls] at h
  · rw [he] at h; simp [notifierCalls] at h
  · rw [he] at h
    simp only [(confirmedOf_effects rt w env data).1] at h
    omega
  · rw [he] at h
    simp only [notifierCalls_append, (confirmedOf_effects rt w env data).1,
      (forwardedOf_effects w env event).1] at h
    omega
  · rw [he] at h
    simp only [notifierCalls_append, (confirmedOf_effects rt w env data).1,
      (forwardedOf_effects w env event).1] at h
    omega
  · have hcalls := handler_answered_calls rt w env event data res fx hm hv hp hi ht hc hf hn
    cases hb : bothPaid rt w env data with
    | false =>
      rw [hcalls, hb] at h
      simp at h
    | true =>
      rw [hb] at hcalls
      exact ⟨data, res, hp, hf, hb, by simpa using hcalls, by rw [he]⟩

/-- C5 as the code has it: when the forwarder was invoked and returned a result
that is not ok, the handler answers 502 'Forward failed (status): text' without
invoking the notifier if the payload status and the confirmed status are not
both "paid"; if both are "paid" and the text of the notification is built, the
notifier is invoked once before the handler answers 502. In every invocation
the notifier is invoked only when the response is 200 or 502. -/
theorem handler_502_on_failed_forward (rt : Runtime) (w : World) (env : Env)
    (event : HandlerEvent) :
    (∀ res data, (handler rt w env event).2.any Effect.isForwarder = true →
      (forwardedOf w env event).1 = some res → res.ok = false →
      rt.jsonParse (rawBodyOf event) = some data →
      (bothPaid rt w env data = false →
        (handler rt w env event).1 =
            .response 502
              ("Forward failed (" ++ toString res.status ++ "): " ++ orEmpty res.text) ∧
          notifierCalls (handler rt w env event).2 = 0) ∧
      (∀ message, bothPaid rt w env data = true →
        paidMessage rt data (data.optChain "invoice_id") = some message →
        (handler rt w env event).1 =
            .response 502
              ("Forward failed (" ++ toString res.status ++ "): " ++ orEmpty res.text) ∧
          notifierCalls (handler rt w env event).2 = 1)) ∧
    (0 < notifierCalls (handler rt w env event).2 →
      (handler rt w env event).1.status = some 200 ∨
        (handler rt w env event).1.status = some 502) := by
  constructor
  · intro res data hcall hf hok hp
    obtain ⟨d, hm, hv, hp2, hi, ht, hc⟩ := handler_reached_forwarder rt w env event hcall
    rw [hp] at hp2
    cases hp2
    constructor
    · intro hb
      obtain ⟨fx, hn⟩ := notifiedOf_some rt w env data (Or.inl hb)
      refine ⟨?_, ?_⟩
      · rw [handler_answered rt w env event data res fx hm hv hp hi ht hc hf hn,
          finalResponse_not_ok res hok]
      · rw [handler_answered_calls rt w env event data res fx hm hv hp hi ht hc hf hn, hb]
        rfl
    · intro message hb hmsg
      obtain ⟨fx, hn⟩ := notifiedOf_some rt w env data (Or.inr ⟨message, hmsg⟩)
      refine ⟨?_, ?_⟩
      · rw [handler_answered rt w env event data res fx hm hv hp hi ht hc hf hn,
          finalResponse_not_ok res hok]
      · rw [handler_answered_calls rt w env event data res fx hm hv hp hi ht hc hf hn, hb]
        rfl
  · intro h
    obtain ⟨data, res, _, _, _, _, he⟩ := handler_notified_cases rt w env event h
    rw [he, finalResponse_status]
    cases res.ok <;> simp

theorem handler_502_on_failed_forward_witness :
    (handler sampleRuntime worldForwardDown envForwarding (postOf bareBody)).2.any
      Effect.isForwarder = true ∧
    (forwardedOf worldForwardDown envForwarding (postOf bareBody)).1 =
      some ⟨false, 500, some "down"⟩ ∧
    sampleRuntime.jsonParse (rawBodyOf (postOf bareBody)) = some bareData ∧
    bothPaid sampleRuntime worldForwardDown envForwarding bareData = false ∧
    ((handler sampleRuntime worldForwardDown envForwarding (postOf bareBody)).1 =
        .response 502 ("Forward failed (" ++ toString 500 ++ "): " ++ orEmpty (some "down")) ∧
      notifierCalls (handler sampleRuntime worldForwardDown envForwarding (postOf bareBody)).2
        = 0) ∧
    (handler sampleRuntime worldForwardDown envForwarding (postOf paidBody)).2.any
      Effect.isForwarder = true ∧
    sampleRuntime.jsonParse (rawBodyOf (postOf paidBody)) = some paidData ∧
    bothPaid sampleRuntime worldForwardDown envForwarding paidData = true ∧
    paidMessage sampleRuntime paidData (paidData.optChain "invoice_id") =
      some "âœ… Payment received\nInvoice: 123\nAmount:  " ∧
    ((handler sampleRuntime worldForwardDown envForwarding (postOf paidBody)).1 =
        .response 502 ("Forward failed (" ++ toString 500 ++ "): " ++ orEmpty (some "down")) ∧
      notifierCalls (handler sampleRuntime worldForwardDown envForwarding (postOf paidBody)).2
        = 1) ∧
    0 < notifierCalls (handler sampleRuntime worldForwardDown envForwarding (postOf paidBody)).2 ∧
    ((handler sampleRuntime worldForwardDown envForwarding (postOf paidBody)).1.status = some 200 ∨
      (handler sampleRuntime worldForwardDown envForwarding (postOf paidBody)).1.status
        = some 502) :=
  ⟨by decide, rfl, rfl, by decide,
    ((handler_502_on_failed_forward sampleRuntime worldForwardDown envForwarding
      (postOf bareBody)).1 ⟨false, 500, some "down"⟩ bareData (by decide) rfl rfl rfl).1
      (by decide),
    by decide, rfl, by decide, by decide,
    ((handler_502_on_failed_forward sampleRuntime worldForwardDown envForwarding
      (postOf paidBody)).1 ⟨false, 500, some "down"⟩ paidData (by decide) rfl rfl rfl).2
      "âœ… Payment received\nInvoice: 123\nAmount:  " (by decide) (by decide),
    by decide,
    (handler_502_on_failed_forward sampleRuntime worldForwardDown envForwarding
      (postOf paidBody)).2 (by decide)⟩

/-- C5 fails as stated: with `{"invoice_id":123,"status":"paid"}`, a provider
that confirms "paid" and a backend that answers 500, the forward result is not
ok, the handler answers 502, and the notifier has been invoked and has sent its
message. -/
theorem notifier_invoked_on_failed_forward :
    ((forwardedOf worldForwardDown envForwarding (postOf paidBody)).1.map ForwardResult.ok) =
      some false ∧
    (handler sampleRuntime worldForwardDown envForwarding (postOf paidBody)).1 =
      .response 502 "Forward failed (500): down" ∧
    notifierCalls (handler sampleRuntime worldForwardDown envForwarding (postOf paidBody)).2 = 1 ∧
    ((handler sampleRuntime worldForwardDown envForwarding (postOf paidBody)).2.filter
      (Effect.isRemoteAt .notification)).length = 1 := by
  decide

theorem lookupField_absent (key : String) (fields : List (String × JVal))
    (h : ∀ p ∈ fields, p.1 ≠ key) : lookupField key fields = .undefined := by
  induction fields with
  | nil => rfl
  | cons p rest ih =>
    obtain ⟨k, v⟩ := p
    have hk : k ≠ key := h (k, v) (List.mem_cons_self _ _)
    simp only [lookupField, if_neg hk]
    exact ih (fun q hq => h q (List.mem_cons_of_mem _ hq))

/-- What holds of the notifier in every invocation: it is invoked at most once,
and only if the payload's own status and the status returned by the provider
lookup both equal "paid"; when the lookup was made, both equal "paid", the
forward returned a result and the text of the notification is built, it is
invoked exactly once; a payload object without a status field never triggers
it. -/
theorem notifier_calls_characterised (rt : Runtime) (w : World) (env : Env)
    (event : HandlerEvent) :
    notifierCalls (handler rt w env event).2 ≤ 1 ∧
    (0 < notifierCalls (handler rt w env event).2 →
      ∃ data, rt.jsonParse (rawBodyOf event) = some data ∧
        data.optChain "status" = .str "paid" ∧
        (confirmedOf rt w env data).1 = .str "paid") ∧
    (∀ data res message, (handler rt w env event).2.any Effect.isResolver = true →
      rt.jsonParse (rawBodyOf event) = some data →
      data.optChain "status" = .str "paid" →
      (confirmedOf rt w env data).1 = .str "paid" →
      (forwardedOf w env event).1 = some res →
      paidMessage rt data (data.optChain "invoice_id") = some message →
      notifierCalls (handler rt w env event).2 = 1) ∧
    (∀ fields, rt.jsonParse (rawBodyOf event) = some (.obj fields) →
      (∀ p ∈ fields, p.1 ≠ "status") →
      notifierCalls (handler rt w env event).2 = 0) := by
  refine ⟨?_, ?_, ?_, ?_⟩
  · by_cases h : 0 < notifierCalls (handler rt w env event).2
    · obtain ⟨_, _, _, _, _, h1, _⟩ := handler_notified_cases rt w env event h
      omega
    · omega
  · intro h
    obtain ⟨data, _, hp, _, hb, _, _⟩ := handler_notified_cases rt w env event h
    exact ⟨data, hp, ((bothPaid_iff rt w env data).mp hb).1,
      ((bothPaid_iff rt w env data).mp hb).2⟩
  · intro data res message hcall hp hs hcs hf hmsg
    obtain ⟨d, hm, hv, hp2, hi, ht⟩ := handler_reached_resolver rt w env event hcall
    rw [hp] at hp2
    cases hp2
    have hc : (confirmedOf rt w env data).1.truthy = true := by
      rw [hcs]
      decide
    obtain ⟨fx, hn⟩ := notifiedOf_some rt w env data (Or.inr ⟨message, hmsg⟩)
    rw [handler_answered_calls rt w env event data res fx hm hv hp hi ht hc hf hn,
      (bothPaid_iff rt w env data).mpr ⟨hs, hcs⟩]
    rfl
  · intro fields hp hno
    by_contra hne
    have h : 0 < notifierCalls (handler rt w env event).2 := by omega
    obtain ⟨data, _, hp2, _, hb, _, _⟩ := handler_notified_cases rt w env event h
    rw [hp] at hp2
    cases hp2
    have hs := ((bothPaid_iff rt w env (.obj fields)).mp hb).1
    simp [JVal.optChain, JVal.isNullish, JVal.getProp, lookupField_absent "status" fields hno]
      at hs

/-- C6 at the body `{"invoice_id":123,"status":"paid","amount":{"toString":null}}`
with the provider confirming "paid" and the backend answering 200: the lookup
was made, the payload status and the confirmed status both equal "paid" and the
forward succeeded, yet the notifier is not invoked, because the template
literal of line 127 throws before the call and the handler's promise rejects. -/
theorem paid_notification_not_attempted :
    (handler sampleRuntime worldAllOk envForwarding (postOf brokenAmountBody)).2.any
      Effect.isResolver = true ∧
    sampleRuntime.jsonParse (rawBodyOf (postOf brokenAmountBody)) = some brokenAmountData ∧
    (brokenAmountData.optChain "status").strictEqStr "paid" = true ∧
    (confirmedOf sampleRuntime worldAllOk envForwarding brokenAmountData).1.strictEqStr "paid"
      = true ∧
    (forwardedOf worldAllOk envForwarding (postOf brokenAmountBody)).1 =
      some ⟨true, 200, some "done"⟩ ∧
    notifierCalls (handler sampleRuntime worldAllOk envForwarding (postOf brokenAmountBody)).2
      = 0 ∧
    (handler sampleRuntime worldAllOk envForwarding (postOf brokenAmountBody)).1 = .rejected :=
  ⟨by decide, rfl, by decide, by decide, rfl, by decide, by decide⟩

/-! ## The field check -/

theorem invoiceIdFalsy_eq (data : JVal) :
    invoiceIdFalsy data = !(data.optChain "invoice_id").truthy := by
  cases data with
  | obj fields =>
    simp only [invoiceIdFalsy, JVal.optChain, JVal.isNullish, JVal.getProp]
    cases hl : lookupField "invoice_id" fields with
    | num n => cases n <;> simp [JVal.truthy, JNum.truthy, bne]
    | _ => simp [JVal.truthy, bne]
  | _ => simp [invoiceIdFalsy, JVal.optChain, JVal.isNullish, JVal.getProp, JVal.truthy]

/-- C8 as the code has it: for a POST whose signature verifies and whose body
parses as JSON, the handler answers 400 'Invoice ID not found' exactly when the
parsed value is not an object carrying invoice_id or its invoice_id is falsy
(null, false, zero, NaN or the empty string); a payload whose invoice_id is a
non-empty string or a number other than zero and NaN passes the field check and
reaches the config check, which answers 500 without a provider token and calls
the resolver otherwise. -/
theorem handler_field_check (rt : Runtime) (w : World) (env : Env) (event : HandlerEvent)
    (data : JVal)
    (hm : event.httpMethod = "POST")
    (hv : verifySignature rt.hmac (rawBodyOf event) (some (signatureOf event))
      (orEmpty env.WEBHOOK_SECRET) = true)
    (hp : rt.jsonParse (rawBodyOf event) = some data) :
    ((handler rt w env event).1 = .response 400 "Invoice ID not found" ↔
      invoiceIdFalsy data = true) ∧
    (∀ fields, data = .obj fields → (lookupField "invoice_id" fields).isUsableId = true →
      invoiceIdFalsy data = false ∧
      (orEmpty env.CRYPTOBOT_TOKEN = "" →
        (handler rt w env event).1 =
          .response 500 "Server not configured: CRYPTOBOT_TOKEN missing") ∧
      (orEmpty env.CRYPTOBOT_TOKEN ≠ "" →
        (handler rt w env event).2.any Effect.isResolver = true)) := by
  have hv2 : isValidOf rt env event = true := hv
  have key : invoiceIdFalsy data = false →
      (handler rt w env event).1 ≠ .response 400 "Invoice ID not found" ∧
      (orEmpty env.CRYPTOBOT_TOKEN = "" →
        (handler rt w env event).1 =
          .response 500 "Server not configured: CRYPTOBOT_TOKEN missing") ∧
      (orEmpty env.CRYPTOBOT_TOKEN ≠ "" →
        (handler rt w env event).2.any Effect.isResolver = true) := by
    intro hfalse
    have hi : (data.optChain "invoice_id").truthy = true := by
      rw [invoiceIdFalsy_eq] at hfalse
      simpa using hfalse
    by_cases ht : orEmpty env.CRYPTOBOT_TOKEN = ""
    · rw [handler_no_token rt w env event data hm hv2 hp hi ht]
      exact ⟨by simp, fun _ => rfl, fun hne => absurd ht hne⟩
    · refine ⟨?_, fun he => absurd he ht, fun _ => ?_⟩
      · cases hc : (confirmedOf rt w env data).1.truthy with
        | false =>
          rw [handler_no_status rt w env event data hm hv2 hp hi ht hc]
          simp
        | true =>
          cases hf : (forwardedOf w env event).1 with
          | none =>
            rw [handler_forward_rejected rt w env event data hm hv2 hp hi ht hc hf]
            simp
          | some res =>
            rw [handler_forwarded rt w env event data res hm hv2 hp hi ht hc hf]
            cases notifiedOf rt w env data with
            | none => simp
            | some fx => cases hok : res.ok <;> simp [finalResponse, hok]
      · cases hc : (confirmedOf rt w env data).1.truthy with
        | false =>
          rw [handler_no_status rt w env event data hm hv2 hp hi ht hc]
          exact (confirmedOf_effects rt w env data).2.1
        | true =>
          cases hf : (forwardedOf w env event).1 with
          | none =>
            rw [handler_forward_rejected rt w env event data hm hv2 hp hi ht hc hf]
            simp only [List.any_append, (confirmedOf_effects rt w env data).2.1, Bool.true_or]
          | some res =>
            rw [handler_forwarded rt w env event data res hm hv2 hp hi ht hc hf]
            cases notifiedOf rt w env data <;>
              simp only [List.any_append, (confirmedOf_effects rt w env data).2.1, Bool.true_or]
  refine ⟨⟨fun h => ?_, fun h => ?_⟩, fun fields hd hu => ?_⟩
  · cases hfal : invoiceIdFalsy data with
    | true => rfl
    | false => exact absurd h (key hfal).1
  · have hi : (data.optChain "invoice_id").truthy = false := by
      rw [invoiceIdFalsy_eq] at h
      simpa using h
    rw [handler_no_invoice rt w env event data hm hv2 hp hi]
  · have hfal : invoiceIdFalsy data = false := by
      rw [hd]
      simp only [invoiceIdFalsy]
      cases hl : lookupField "invoice_id" fields with
      | num n =>
        rw [hl] at hu
        cases n <;> simp_all [JVal.isUsableId, JNum.truthy]
      | str id =>
        rw [hl] at hu
        simpa [JVal.isUsableId] using hu
      | _ => simp [hl, JVal.isUsableId] at hu
    exact ⟨hfal, (key hfal).2⟩

theorem handler_field_check_witness :
    (postOf bareBody).httpMethod = "POST" ∧
    verifySignature sampleRuntime.hmac (rawBodyOf (postOf bareBody))
      (some (signatureOf (postOf bareBody))) (orEmpty envEmpty.WEBHOOK_SECRET) = true ∧
    sampleRuntime.jsonParse (rawBodyOf (postOf bareBody)) = some bareData ∧
    (lookupField "invoice_id" [("invoice_id", JVal.num (.finite 123 0))]).isUsableId = true ∧
    orEmpty envEmpty.CRYPTOBOT_TOKEN = "" ∧
    (handler sampleRuntime worldAllOk envEmpty (postOf bareBody)).1 =
      .response 500 "Server not configured: CRYPTOBOT_TOKEN missing" :=
  ⟨rfl, by decide, rfl, by decide, by decide,
    ((handler_field_check sampleRuntime worldAllOk envEmpty (postOf bareBody) bareData
      rfl (by decide) rfl).2 [("invoice_id", .num (.finite 123 0))] rfl (by decide)).2.1
      (by decide)⟩

/-- C8 fails as stated: `{"invoice_id":0}` is an object whose invoice_id is a
present, non-null, non-empty number, yet the handler rejects it at the field
check with 400 'Invoice ID not found'. -/
theorem zero_invoice_id_rejected :
    (postOf zeroBody).httpMethod = "POST" ∧
    isValidOf sampleRuntime envTokenOnly (postOf zeroBody) = true ∧
    (sampleRuntime.jsonParse (rawBodyOf (postOf zeroBody))).map specInvoiceIdMissing =
      some false ∧
    (handler sampleRuntime worldAllOk envTokenOnly (postOf zeroBody)).1 =
      .response 400 "Invoice ID not found" := by
  decide

end CryptobotWebhook
